import Mathlib

/-!
Verification of the transaction preparation, signing-dispatch and broadcast
pipeline of the stacks-wallet repository (the module exporting
prepareTransaction, generateTransaction and broadcastTransaction).

External asynchronous calls (network reads, address translation, the
token-transfer builder, the relay HTTP post, the bitcoin transaction hash)
are modelled as an environment of functions returning Except values: a
value of the form Except.error models an awaited call that throws or a
rejected promise, carrying the thrown value.  The pipeline functions are
translated statement by statement from the source; JavaScript numbers and
BigInteger amounts are modelled as Int.
-/

namespace StacksWallet

/-- Tags of the values in the ERRORS table of the source module. -/
inductive ErrorType where
  | INSUFFICIENT_BTC_BALANCE
  | PENDING_CONFIRMATIONS
  | INSUFFICIENT_STX_BALANCE
  | LOCKED_TOKENS
  | TRANSACTION_ERROR
deriving DecidableEq, Repr

/-- A returned error object: the shape of the members of ERRORS, with the
three extra numeric fields that prepareTransaction spreads onto the
insufficient-btc error (absent, i.e. none, on every other error value). -/
structure TxErrorVal where
  error : Bool
  type : ErrorType
  message : String
  estimate : Option Int
  btcBalance : Option Int
  difference : Option Int
deriving DecidableEq, Repr

def ERRORS.INSUFFICIENT_BTC_BALANCE : TxErrorVal :=
  { error := true, type := ErrorType.INSUFFICIENT_BTC_BALANCE,
    message := "Insufficient Bitcoin balance to fund transaction fees.",
    estimate := none, btcBalance := none, difference := none }

def ERRORS.PENDING_CONFIRMATIONS : TxErrorVal :=
  { error := true, type := ErrorType.PENDING_CONFIRMATIONS,
    message := "Your BTC is still being confirmed. Please try again later.",
    estimate := none, btcBalance := none, difference := none }

def ERRORS.INSUFFICIENT_STX_BALANCE : TxErrorVal :=
  { error := true, type := ErrorType.INSUFFICIENT_STX_BALANCE,
    message := "Insufficient Stacks balance.",
    estimate := none, btcBalance := none, difference := none }

def ERRORS.LOCKED_TOKENS : TxErrorVal :=
  { error := true, type := ErrorType.LOCKED_TOKENS,
    message := "Token transfer cannot be safely sent. Tokens have not been unlocked.",
    estimate := none, btcBalance := none, difference := none }

/-- ERRORS.TRANSACTION_ERROR is a function with a default parameter; passing
JavaScript undefined (modelled by none) selects the default message. -/
def ERRORS.TRANSACTION_ERROR (message : Option String) : TxErrorVal :=
  { error := true, type := ErrorType.TRANSACTION_ERROR,
    message := message.getD "Token transfer cannot be safely sent.",
    estimate := none, btcBalance := none, difference := none }

/-- Modelled from the spec: the WALLET_TYPES enum lives in the wallet reducer
module, which is not among the given source files.  The spec describes it as
an enum of two device tags (DEVICE_A = Ledger, DEVICE_B = Trezor), compared
against the request by string equality; two distinct string tags model it. -/
def WALLET_TYPES.LEDGER : String := "LEDGER"

/-- Modelled from the spec: the second member of the WALLET_TYPES enum. -/
def WALLET_TYPES.TREZOR : String := "TREZOR"

/-- Modelled from the spec: PATH is a fixed derivation path constant from the
constants module, not among the given source files; its value is opaque to
the pipeline, which only passes it to the signer constructors. -/
def PATH : String := "PATH"

/-- Modelled from the spec: sumUTXOs (from the utils module, not among the
given source files) sums the values of the spendable outputs; each UTXO is
modelled by its value. -/
def sumUTXOs (utxos : List Int) : Int := utxos.foldl (fun a b => a + b) 0

/-- Modelled from the spec: toBigInt converts the request amount to an
arbitrary-precision integer; amounts are already modelled as Int, so the
conversion is the identity on the represented value. -/
def toBigInt (amount : Int) : Int := amount

/-- The account status record returned by getAccountStatus, restricted to the
field the pipeline reads. -/
structure AccountStatus where
  lock_transfer_block_id : Int
deriving DecidableEq, Repr

/-- The object prepareTransaction returns when every gate passes. -/
structure PreparedTransfer where
  senderBtcAddress : String
  recipientBtcAddress : String
  tokenType : String
  tokenAmount : Int
  utxos : List Int
  numUTXOs : Nat
  estimate : Int
  btcBalance : Int
  accountStatus : AccountStatus
  currentAccountBalance : Int
  blockHeight : Int
deriving DecidableEq, Repr

/-- The value prepareTransaction resolves with: either one of the ERRORS
objects (all of which have error = true) or a PreparedTransfer. -/
inductive PrepareOutcome where
  | errResult (e : TxErrorVal)
  | okResult (t : PreparedTransfer)
deriving DecidableEq, Repr

/-- The external calls awaited by prepareTransaction.  An Except.error result
models a call that throws; the carried String is the thrown Error's message,
which prepareTransaction propagates unhandled (it has no try/catch). -/
structure PrepareEnv where
  c32ToB58 : String → Except String String
  getUTXOs : String → Except String (List Int)
  estimateTokenTransfer : String → String → Int → String → Nat → Except String Int
  getAccountStatus : String → String → Except String AccountStatus
  getAccountBalance : String → String → Except String Int
  getBlockHeight : Except String Int

/-- prepareTransaction, translated statement by statement from the source:
translate both addresses, read the UTXO set, estimate the fee and add the
fixed 5500 surcharge, read balance, account status and block height, then
run the three gates in order, returning the matching ERRORS value (with the
extra numeric fields spread onto the insufficient-btc error) or the
PreparedTransfer.  The walletType parameter is accepted and unused, as in
the source. -/
def prepareTransaction (env : PrepareEnv) (senderAddress recipientAddress : String)
    (amount : Int) (walletType : String) (memo : String) :
    Except String PrepareOutcome :=
  match env.c32ToB58 senderAddress with
  | Except.error e => Except.error e
  | Except.ok senderBtcAddress =>
  match env.c32ToB58 recipientAddress with
  | Except.error e => Except.error e
  | Except.ok recipientBtcAddress =>
  let tokenType := "STACKS"
  let tokenAmount := toBigInt amount
  match env.getUTXOs senderBtcAddress with
  | Except.error e => Except.error e
  | Except.ok utxos =>
  let numUTXOs := utxos.length
  match env.estimateTokenTransfer recipientBtcAddress tokenType tokenAmount memo numUTXOs with
  | Except.error e => Except.error e
  | Except.ok rawEstimate =>
  let estimate := rawEstimate + 5500
  let btcBalance := sumUTXOs utxos
  match env.getAccountStatus senderBtcAddress tokenType with
  | Except.error e => Except.error e
  | Except.ok accountStatus =>
  match env.getAccountBalance senderBtcAddress tokenType with
  | Except.error e => Except.error e
  | Except.ok currentAccountBalance =>
  match env.getBlockHeight with
  | Except.error e => Except.error e
  | Except.ok blockHeight =>
  if btcBalance < estimate then
    Except.ok (PrepareOutcome.errResult
      { ERRORS.INSUFFICIENT_BTC_BALANCE with
        estimate := some estimate,
        btcBalance := some btcBalance,
        difference := some (estimate - btcBalance) })
  else if currentAccountBalance < tokenAmount then
    Except.ok (PrepareOutcome.errResult ERRORS.INSUFFICIENT_STX_BALANCE)
  else if accountStatus.lock_transfer_block_id > blockHeight then
    Except.ok (PrepareOutcome.errResult ERRORS.LOCKED_TOKENS)
  else
    Except.ok (PrepareOutcome.okResult
      { senderBtcAddress := senderBtcAddress,
        recipientBtcAddress := recipientBtcAddress,
        tokenType := tokenType,
        tokenAmount := tokenAmount,
        utxos := utxos,
        numUTXOs := numUTXOs,
        estimate := estimate,
        btcBalance := btcBalance,
        accountStatus := accountStatus,
        currentAccountBalance := currentAccountBalance,
        blockHeight := blockHeight })

/-- The two signer variants: LedgerSigner(PATH, Transport) and
TrezorSigner(PATH, senderBtcAddress).  The Ledger transport handle carries
no data relevant to this model. -/
inductive Signer where
  | ledgerSigner (path : String)
  | trezorSigner (path : String) (senderBtcAddress : String)
deriving DecidableEq, Repr

/-- The environment of generateTransaction: the calls of prepareTransaction
plus the token-transfer builder, which receives the chosen signer and either
resolves with the raw transaction hex or throws. -/
structure GenEnv extends PrepareEnv where
  makeTokenTransfer : String → String → Int → String → Signer → Except String String

/-- The value generateTransaction resolves with: an ERRORS object or the
fee/rawTx pair.  generateTransaction never rejects: its whole body is inside
a try whose catch returns ERRORS.TRANSACTION_ERROR(e.message), which the
total return type makes structural. -/
inductive GenerateResult where
  | errResult (e : TxErrorVal)
  | okResult (fee : Int) (rawTx : String)
deriving DecidableEq, Repr

/-- generateTransaction, translated from the source: run prepareTransaction
(a throw from it is caught and wrapped as TRANSACTION_ERROR with the thrown
message); forward a returned error object unchanged; otherwise select the
signer from walletType (Ledger exactly when walletType equals
WALLET_TYPES.LEDGER, Trezor otherwise) and call makeTokenTransfer, wrapping
a throw the same way and returning the fee and raw transaction on success.
The source's falsy-result check (if (!tx) ...) is unrepresentable here
because prepareTransaction always resolves with a value. -/
def generateTransaction (env : GenEnv) (senderAddress recipientAddress : String)
    (amount : Int) (walletType : String) (memo : String) : GenerateResult :=
  match prepareTransaction env.toPrepareEnv senderAddress recipientAddress
      amount walletType memo with
  | Except.error e => GenerateResult.errResult (ERRORS.TRANSACTION_ERROR (some e))
  | Except.ok (PrepareOutcome.errResult e) => GenerateResult.errResult e
  | Except.ok (PrepareOutcome.okResult tx) =>
    let isLedger := walletType == WALLET_TYPES.LEDGER
    let signer := if isLedger then Signer.ledgerSigner PATH
                  else Signer.trezorSigner PATH tx.senderBtcAddress
    match env.makeTokenTransfer tx.recipientBtcAddress tx.tokenType tx.tokenAmount
        memo signer with
    | Except.error e => GenerateResult.errResult (ERRORS.TRANSACTION_ERROR (some e))
    | Except.ok rawTx => GenerateResult.okResult tx.estimate rawTx

/-- The two kinds of JavaScript value thrown inside broadcastTransaction's
try block: a plain string (the Promise.reject with a template string) or an
Error object carrying a message (transport and parsing failures). -/
inductive JsThrown where
  | strVal (s : String)
  | errVal (message : String)
deriving DecidableEq, Repr

/-- Reading the message property of a thrown value: an Error object yields
its message; a plain string has no message property, which reads as
JavaScript undefined, modelled by none. -/
def jsMessage : JsThrown → Option String
  | JsThrown.strVal _ => none
  | JsThrown.errVal m => some m

/-- The message of new Error(x): the given string when x is a string, and
the empty string when x is undefined (the Error constructor sets no message
property then, so the empty prototype message is read). -/
def newErrorMessage : Option String → String
  | none => ""
  | some m => m

/-- JavaScript String.prototype.toLowerCase, modelled characterwise. -/
def toLowerCase (s : String) : String := String.mk (s.data.map Char.toLower)

/-- Whether the character list begins with the given pattern list. -/
def startsWithChars : List Char → List Char → Bool
  | _, [] => true
  | [], _ :: _ => false
  | a :: as, b :: bs => a == b && startsWithChars as bs

/-- Whether the pattern list occurs as a contiguous run anywhere in the
character list. -/
def hasSubChars : List Char → List Char → Bool
  | [], pat => startsWithChars [] pat
  | a :: rest, pat => startsWithChars (a :: rest) pat || hasSubChars rest pat

/-- JavaScript s.indexOf(pat) >= 0: whether pat occurs as a substring. -/
def indexOfNonneg (s pat : String) : Bool := hasSubChars s.data pat.data

/-- One hexadecimal digit character, lowercase. -/
def hexDigit (n : Nat) : Char :=
  if n < 10 then Char.ofNat (48 + n) else Char.ofNat (87 + n)

/-- Buffer.toString with encoding hex: two lowercase digits per byte. -/
def hexOfBytes (bs : List Nat) : String :=
  String.mk ((bs.map (fun b => [hexDigit (b / 16 % 16), hexDigit (b % 16)])).flatten)

/-- The external calls of broadcastTransaction.  postTransaction covers the
relay POST together with reading the response body as text (an Except.error
is a transport failure throwing an Error with the given message); getHash
covers btc.Transaction.fromHex(rawTx).getHash(), the transaction's internal
little-endian hash as a byte list (an Except.error is a parse failure
throwing an Error with the given message). -/
structure BroadcastEnv where
  postTransaction : String → Except String String
  getHash : String → Except String (List Nat)

/-- broadcastTransaction, translated from the source: inside the try, post
the transaction and read the body; succeed when the lowercased body contains
the substring of the success phrase, returning the hex of the byte-reversed
hash; otherwise reject with a plain template string that embeds the body.
The catch rethrows new Error(e.message), so the function's error value is
the message property of whatever was thrown, read as in JavaScript. -/
def broadcastTransaction (env : BroadcastEnv) (rawTx : String) :
    Except String String :=
  let tryBody : Except JsThrown String :=
    match env.postTransaction rawTx with
    | Except.error m => Except.error (JsThrown.errVal m)
    | Except.ok text =>
      let success := indexOfNonneg (toLowerCase text) "transaction submitted"
      if success then
        match env.getHash rawTx with
        | Except.error m => Except.error (JsThrown.errVal m)
        | Except.ok h => Except.ok (hexOfBytes h.reverse)
      else
        Except.error (JsThrown.strVal
          ("Broadcast transaction failed with message: " ++ text))
  match tryBody with
  | Except.ok v => Except.ok v
  | Except.error e => Except.error (newErrorMessage (jsMessage e))

/-! Concrete environments used to evaluate the pipeline on closed inputs. -/

/-- A chain state with ample funding: two UTXOs of 1000000, raw fee estimate
44500 (so the charged estimate is 50000), token balance 100, no lock. -/
def fundedEnv : GenEnv :=
  { c32ToB58 := fun a => Except.ok ("B" ++ a),
    getUTXOs := fun _ => Except.ok [1000000, 1000000],
    estimateTokenTransfer := fun _ _ _ _ _ => Except.ok 44500,
    getAccountStatus := fun _ _ => Except.ok { lock_transfer_block_id := 0 },
    getAccountBalance := fun _ _ => Except.ok 100,
    getBlockHeight := Except.ok 500000,
    makeTokenTransfer := fun _ _ _ _ s =>
      match s with
      | Signer.ledgerSigner _ => Except.ok "rawhex-ledger"
      | Signer.trezorSigner _ _ => Except.ok "rawhex-trezor" }

/-- A chain state that fails both the funding gate (balance 10000 against
estimate 50000) and the lock gate (unlock height above the chain height). -/
def brokeLockedEnv : GenEnv :=
  { c32ToB58 := fun a => Except.ok ("B" ++ a),
    getUTXOs := fun _ => Except.ok [10000],
    estimateTokenTransfer := fun _ _ _ _ _ => Except.ok 44500,
    getAccountStatus := fun _ _ => Except.ok { lock_transfer_block_id := 600000 },
    getAccountBalance := fun _ _ => Except.ok 100,
    getBlockHeight := Except.ok 500000,
    makeTokenTransfer := fun _ _ _ _ _ => Except.ok "rawhex" }

/-- An environment whose address translation throws, as c32ToB58 does on a
malformed c32check address. -/
def badAddressEnv : GenEnv :=
  { c32ToB58 := fun _ => Except.error "Invalid c32check string: checksum failed",
    getUTXOs := fun _ => Except.ok [1000000],
    estimateTokenTransfer := fun _ _ _ _ _ => Except.ok 44500,
    getAccountStatus := fun _ _ => Except.ok { lock_transfer_block_id := 0 },
    getAccountBalance := fun _ _ => Except.ok 100,
    getBlockHeight := Except.ok 500000,
    makeTokenTransfer := fun _ _ _ _ _ => Except.ok "rawhex" }

/-- An environment where the sender address translates but the recipient
address translation throws. -/
def badRecipientEnv : GenEnv :=
  { c32ToB58 := fun a =>
      if a == "SP1" then Except.ok "BSP1"
      else Except.error "Invalid c32check string: checksum failed",
    getUTXOs := fun _ => Except.ok [1000000],
    estimateTokenTransfer := fun _ _ _ _ _ => Except.ok 44500,
    getAccountStatus := fun _ _ => Except.ok { lock_transfer_block_id := 0 },
    getAccountBalance := fun _ _ => Except.ok 100,
    getBlockHeight := Except.ok 500000,
    makeTokenTransfer := fun _ _ _ _ _ => Except.ok "rawhex" }

/-- An environment whose token-transfer builder throws during signing. -/
def signFailEnv : GenEnv :=
  { fundedEnv with
    makeTokenTransfer := fun _ _ _ _ _ => Except.error "Ledger device: U2F timeout" }

/-- A relay that accepts the transaction, answering with a capitalized body,
for a raw transaction hashing to the bytes 1, 2, 171. -/
def relayAcceptEnv : BroadcastEnv :=
  { postTransaction := fun _ => Except.ok "Transaction Submitted. ID: abc",
    getHash := fun _ => Except.ok [1, 2, 171] }

/-- A relay that rejects the transaction with a plain-text reason. -/
def relayRejectEnv : BroadcastEnv :=
  { postTransaction := fun _ => Except.ok "Invalid transaction format",
    getHash := fun _ => Except.ok [1, 2, 171] }

/-- A relay that cannot be reached: the POST throws a transport Error. -/
def relayDownEnv : BroadcastEnv :=
  { postTransaction := fun _ => Except.error "connect ECONNREFUSED",
    getHash := fun _ => Except.ok [1, 2, 171] }

/-! Claim theorems. -/

/-- Claim C1: whenever every chain read succeeds and the snapshot satisfies
btcBalance at least the estimate, account balance at least the token amount,
and lock height at most the block height, prepareTransaction returns the
PreparedTransfer built from that snapshot and no error; and conversely, any
PreparedTransfer it ever returns records a snapshot on which all three
validation gates pass, so its existence proves admission. -/
theorem prepare_admits_when_gates_pass
    (env : PrepareEnv) (sender recipient : String) (amount : Int)
    (walletType memo : String) (sBtc rBtc : String) (utxos : List Int)
    (rawEst : Int) (st : AccountStatus) (bal hgt : Int)
    (h1 : env.c32ToB58 sender = Except.ok sBtc)
    (h2 : env.c32ToB58 recipient = Except.ok rBtc)
    (h3 : env.getUTXOs sBtc = Except.ok utxos)
    (h4 : env.estimateTokenTransfer rBtc "STACKS" (toBigInt amount) memo
            utxos.length = Except.ok rawEst)
    (h5 : env.getAccountStatus sBtc "STACKS" = Except.ok st)
    (h6 : env.getAccountBalance sBtc "STACKS" = Except.ok bal)
    (h7 : env.getBlockHeight = Except.ok hgt)
    (g1 : rawEst + 5500 ≤ sumUTXOs utxos)
    (g2 : toBigInt amount ≤ bal)
    (g3 : st.lock_transfer_block_id ≤ hgt) :
    prepareTransaction env sender recipient amount walletType memo =
      Except.ok (PrepareOutcome.okResult
        { senderBtcAddress := sBtc, recipientBtcAddress := rBtc,
          tokenType := "STACKS", tokenAmount := toBigInt amount,
          utxos := utxos, numUTXOs := utxos.length,
          estimate := rawEst + 5500, btcBalance := sumUTXOs utxos,
          accountStatus := st, currentAccountBalance := bal,
          blockHeight := hgt })
    ∧ ∀ (env' : PrepareEnv) (s' r' : String) (a' : Int) (w' m' : String)
        (t : PreparedTransfer),
        prepareTransaction env' s' r' a' w' m' =
          Except.ok (PrepareOutcome.okResult t) →
        t.estimate ≤ t.btcBalance ∧ t.tokenAmount ≤ t.currentAccountBalance ∧
          t.accountStatus.lock_transfer_block_id ≤ t.blockHeight := by
  constructor
  · unfold prepareTransaction
    simp only [h1, h2, h3, h4, h5, h6, h7]
    rw [if_neg (not_lt.mpr g1), if_neg (not_lt.mpr g2), if_neg (not_lt.mpr g3)]
  · intro env' s' r' a' w' m' t hres
    unfold prepareTransaction at hres
    cases hc1 : env'.c32ToB58 s' <;> simp only [hc1] at hres
    case error => exact Except.noConfusion hres
    case ok sB =>
    cases hc2 : env'.c32ToB58 r' <;> simp only [hc2] at hres
    case error => exact Except.noConfusion hres
    case ok rB =>
    cases hc3 : env'.getUTXOs sB <;> simp only [hc3] at hres
    case error => exact Except.noConfusion hres
    case ok us =>
    cases hc4 : env'.estimateTokenTransfer rB "STACKS" (toBigInt a') m' us.length <;>
      simp only [hc4] at hres
    case error => exact Except.noConfusion hres
    case ok re =>
    cases hc5 : env'.getAccountStatus sB "STACKS" <;> simp only [hc5] at hres
    case error => exact Except.noConfusion hres
    case ok ast =>
    cases hc6 : env'.getAccountBalance sB "STACKS" <;> simp only [hc6] at hres
    case error => exact Except.noConfusion hres
    case ok cab =>
    cases hc7 : env'.getBlockHeight <;> simp only [hc7] at hres
    case error => exact Except.noConfusion hres
    case ok bh =>
    by_cases k1 : sumUTXOs us < re + 5500
    · rw [if_pos k1] at hres
      simp at hres
    · rw [if_neg k1] at hres
      by_cases k2 : cab < toBigInt a'
      · rw [if_pos k2] at hres
        simp at hres
      · rw [if_neg k2] at hres
        by_cases k3 : ast.lock_transfer_block_id > bh
        · rw [if_pos k3] at hres
          simp at hres
        · rw [if_neg k3] at hres
          simp only [Except.ok.injEq, PrepareOutcome.okResult.injEq] at hres
          subst hres
          refine ⟨?_, ?_, ?_⟩ <;> simp <;> omega

/-- Witness for C1, the spec's funded scenario: two 1000000-unit UTXOs, raw
estimate 44500, balance 100, unlocked, so the transfer is admitted with
estimate 50000 against 2000000 of funding. -/
theorem prepare_admits_when_gates_pass_witness :
    prepareTransaction fundedEnv.toPrepareEnv "SP1" "SP2" 25 "TREZOR" "hi" =
      Except.ok (PrepareOutcome.okResult
        { senderBtcAddress := "BSP1", recipientBtcAddress := "BSP2",
          tokenType := "STACKS", tokenAmount := 25,
          utxos := [1000000, 1000000], numUTXOs := 2,
          estimate := 50000, btcBalance := 2000000,
          accountStatus := { lock_transfer_block_id := 0 },
          currentAccountBalance := 100, blockHeight := 500000 }) :=
  (prepare_admits_when_gates_pass fundedEnv.toPrepareEnv "SP1" "SP2" 25
    "TREZOR" "hi" "BSP1" "BSP2" [1000000, 1000000] 44500
    { lock_transfer_block_id := 0 } 100 500000
    rfl rfl rfl rfl rfl rfl rfl (by decide) (by decide) (by decide)).1

/-- Claim C2: whenever the chain reads succeed and btcBalance is below the
estimate, prepareTransaction returns the insufficient-funding error carrying
the estimate, the balance, and a difference field equal to exactly
estimate minus btcBalance, with no hypothesis on the token-sufficiency or
lock gates. -/
theorem prepare_funding_gate_shortfall
    (env : PrepareEnv) (sender recipient : String) (amount : Int)
    (walletType memo : String) (sBtc rBtc : String) (utxos : List Int)
    (rawEst : Int) (st : AccountStatus) (bal hgt : Int)
    (h1 : env.c32ToB58 sender = Except.ok sBtc)
    (h2 : env.c32ToB58 recipient = Except.ok rBtc)
    (h3 : env.getUTXOs sBtc = Except.ok utxos)
    (h4 : env.estimateTokenTransfer rBtc "STACKS" (toBigInt amount) memo
            utxos.length = Except.ok rawEst)
    (h5 : env.getAccountStatus sBtc "STACKS" = Except.ok st)
    (h6 : env.getAccountBalance sBtc "STACKS" = Except.ok bal)
    (h7 : env.getBlockHeight = Except.ok hgt)
    (g : sumUTXOs utxos < rawEst + 5500) :
    prepareTransaction env sender recipient amount walletType memo =
      Except.ok (PrepareOutcome.errResult
        { error := true, type := ErrorType.INSUFFICIENT_BTC_BALANCE,
          message := "Insufficient Bitcoin balance to fund transaction fees.",
          estimate := some (rawEst + 5500),
          btcBalance := some (sumUTXOs utxos),
          difference := some (rawEst + 5500 - sumUTXOs utxos) }) := by
  unfold prepareTransaction
  simp only [h1, h2, h3, h4, h5, h6, h7]
  rw [if_pos g]
  rfl

/-- Witness for C2, the spec's underfunded scenario: balance 10000 against
estimate 50000 reports a shortfall of 40000, even though the lock gate would
also fail on this snapshot. -/
theorem prepare_funding_gate_shortfall_witness :
    prepareTransaction brokeLockedEnv.toPrepareEnv "SP1" "SP2" 25 "TREZOR" "" =
      Except.ok (PrepareOutcome.errResult
        { error := true, type := ErrorType.INSUFFICIENT_BTC_BALANCE,
          message := "Insufficient Bitcoin balance to fund transaction fees.",
          estimate := some 50000, btcBalance := some 10000,
          difference := some 40000 }) :=
  prepare_funding_gate_shortfall brokeLockedEnv.toPrepareEnv "SP1" "SP2" 25
    "TREZOR" "" "BSP1" "BSP2" [10000] 44500
    { lock_transfer_block_id := 600000 } 100 500000
    rfl rfl rfl rfl rfl rfl rfl (by decide)

/-- Claim C3: with successful chain reads, the gates run in the fixed order
funding, token sufficiency, lock status, short-circuiting on the first
failure: a failing funding gate yields the insufficient-funding error (never
the locked-tokens error) whatever the other gates; with funding passing, a
failing sufficiency gate yields the insufficient-balance error; and only
with both passing does the lock gate yield the locked-tokens error. -/
theorem prepare_gate_precedence
    (env : PrepareEnv) (sender recipient : String) (amount : Int)
    (walletType memo : String) (sBtc rBtc : String) (utxos : List Int)
    (rawEst : Int) (st : AccountStatus) (bal hgt : Int)
    (h1 : env.c32ToB58 sender = Except.ok sBtc)
    (h2 : env.c32ToB58 recipient = Except.ok rBtc)
    (h3 : env.getUTXOs sBtc = Except.ok utxos)
    (h4 : env.estimateTokenTransfer rBtc "STACKS" (toBigInt amount) memo
            utxos.length = Except.ok rawEst)
    (h5 : env.getAccountStatus sBtc "STACKS" = Except.ok st)
    (h6 : env.getAccountBalance sBtc "STACKS" = Except.ok bal)
    (h7 : env.getBlockHeight = Except.ok hgt) :
    (sumUTXOs utxos < rawEst + 5500 →
      ∃ e, prepareTransaction env sender recipient amount walletType memo =
          Except.ok (PrepareOutcome.errResult e) ∧
        e.type = ErrorType.INSUFFICIENT_BTC_BALANCE ∧
        e.type ≠ ErrorType.LOCKED_TOKENS)
    ∧ (rawEst + 5500 ≤ sumUTXOs utxos → bal < toBigInt amount →
      prepareTransaction env sender recipient amount walletType memo =
        Except.ok (PrepareOutcome.errResult ERRORS.INSUFFICIENT_STX_BALANCE))
    ∧ (rawEst + 5500 ≤ sumUTXOs utxos → toBigInt amount ≤ bal →
      hgt < st.lock_transfer_block_id →
      prepareTransaction env sender recipient amount walletType memo =
        Except.ok (PrepareOutcome.errResult ERRORS.LOCKED_TOKENS)) := by
  refine ⟨?_, ?_, ?_⟩
  · intro k1
    have heq : prepareTransaction env sender recipient amount walletType memo =
        Except.ok (PrepareOutcome.errResult
          { error := true, type := ErrorType.INSUFFICIENT_BTC_BALANCE,
            message := "Insufficient Bitcoin balance to fund transaction fees.",
            estimate := some (rawEst + 5500),
            btcBalance := some (sumUTXOs utxos),
            difference := some (rawEst + 5500 - sumUTXOs utxos) }) := by
      unfold prepareTransaction
      simp only [h1, h2, h3, h4, h5, h6, h7]
      rw [if_pos k1]
      rfl
    exact ⟨_, heq, rfl, by simp⟩
  · intro k1 k2
    unfold prepareTransaction
    simp only [h1, h2, h3, h4, h5, h6, h7]
    rw [if_neg (not_lt.mpr k1), if_pos k2]
  · intro k1 k2 k3
    unfold prepareTransaction
    simp only [h1, h2, h3, h4, h5, h6, h7]
    rw [if_neg (not_lt.mpr k1), if_neg (not_lt.mpr k2), if_pos k3]

/-- Witness for C3: a snapshot that fails funding (10000 against 50000) and
lock status (unlock at 600000 against height 500000) at once surfaces the
insufficient-funding error and not the locked-tokens error. -/
theorem prepare_gate_precedence_witness :
    ∃ e, prepareTransaction brokeLockedEnv.toPrepareEnv "SP1" "SP2" 25
        "TREZOR" "" = Except.ok (PrepareOutcome.errResult e) ∧
      e.type = ErrorType.INSUFFICIENT_BTC_BALANCE ∧
      e.type ≠ ErrorType.LOCKED_TOKENS :=
  (prepare_gate_precedence brokeLockedEnv.toPrepareEnv "SP1" "SP2" 25
    "TREZOR" "" "BSP1" "BSP2" [10000] 44500
    { lock_transfer_block_id := 600000 } 100 500000
    rfl rfl rfl rfl rfl rfl rfl).1 (by decide)

/-- Helper: every error object prepareTransaction can return is one of the
three gate errors; its type tag is insufficient-btc, insufficient-stx or
locked-tokens. -/
theorem prepare_err_types
    (env : PrepareEnv) (sender recipient : String) (amount : Int)
    (walletType memo : String) (e : TxErrorVal)
    (hres : prepareTransaction env sender recipient amount walletType memo =
      Except.ok (PrepareOutcome.errResult e)) :
    e.type = ErrorType.INSUFFICIENT_BTC_BALANCE ∨
    e.type = ErrorType.INSUFFICIENT_STX_BALANCE ∨
    e.type = ErrorType.LOCKED_TOKENS := by
  unfold prepareTransaction at hres
  cases hc1 : env.c32ToB58 sender <;> simp only [hc1] at hres
  case error => exact Except.noConfusion hres
  case ok sB =>
  cases hc2 : env.c32ToB58 recipient <;> simp only [hc2] at hres
  case error => exact Except.noConfusion hres
  case ok rB =>
  cases hc3 : env.getUTXOs sB <;> simp only [hc3] at hres
  case error => exact Except.noConfusion hres
  case ok us =>
  cases hc4 : env.estimateTokenTransfer rB "STACKS" (toBigInt amount) memo
      us.length <;> simp only [hc4] at hres
  case error => exact Except.noConfusion hres
  case ok re =>
  cases hc5 : env.getAccountStatus sB "STACKS" <;> simp only [hc5] at hres
  case error => exact Except.noConfusion hres
  case ok ast =>
  cases hc6 : env.getAccountBalance sB "STACKS" <;> simp only [hc6] at hres
  case error => exact Except.noConfusion hres
  case ok cab =>
  cases hc7 : env.getBlockHeight <;> simp only [hc7] at hres
  case error => exact Except.noConfusion hres
  case ok bh =>
  by_cases k1 : sumUTXOs us < re + 5500
  · rw [if_pos k1] at hres
    simp only [Except.ok.injEq, PrepareOutcome.errResult.injEq] at hres
    subst hres
    exact Or.inl rfl
  · rw [if_neg k1] at hres
    by_cases k2 : cab < toBigInt amount
    · rw [if_pos k2] at hres
      simp only [Except.ok.injEq, PrepareOutcome.errResult.injEq] at hres
      subst hres
      exact Or.inr (Or.inl rfl)
    · rw [if_neg k2] at hres
      by_cases k3 : ast.lock_transfer_block_id > bh
      · rw [if_pos k3] at hres
        simp only [Except.ok.injEq, PrepareOutcome.errResult.injEq] at hres
        subst hres
        exact Or.inr (Or.inr rfl)
      · rw [if_neg k3] at hres
        simp at hres

/-- Claim C9: for every environment and input, an error returned by
prepareTransaction or by generateTransaction never has the
PENDING_CONFIRMATIONS type; that member of the ERRORS table is unreachable
in both pipeline entry points. -/
theorem pending_confirmations_unreachable
    (env : GenEnv) (sender recipient : String) (amount : Int)
    (walletType memo : String) :
    (∀ e, prepareTransaction env.toPrepareEnv sender recipient amount
        walletType memo = Except.ok (PrepareOutcome.errResult e) →
      e.type ≠ ErrorType.PENDING_CONFIRMATIONS)
    ∧ (∀ e, generateTransaction env sender recipient amount walletType memo =
        GenerateResult.errResult e →
      e.type ≠ ErrorType.PENDING_CONFIRMATIONS) := by
  constructor
  · intro e h
    rcases prepare_err_types env.toPrepareEnv sender recipient amount
        walletType memo e h with k | k | k <;> rw [k] <;> decide
  · intro e h
    unfold generateTransaction at h
    cases hp : prepareTransaction env.toPrepareEnv sender recipient amount
        walletType memo <;> simp only [hp] at h
    case error m =>
      simp only [GenerateResult.errResult.injEq] at h
      subst h
      simp [ERRORS.TRANSACTION_ERROR]
    case ok o =>
      cases o with
      | errResult e' =>
        simp only [GenerateResult.errResult.injEq] at h
        subst h
        rcases prepare_err_types env.toPrepareEnv sender recipient amount
            walletType memo e' hp with k | k | k <;> rw [k] <;> decide
      | okResult t =>
        cases hm : env.makeTokenTransfer t.recipientBtcAddress t.tokenType
            t.tokenAmount memo
            (if walletType == WALLET_TYPES.LEDGER then Signer.ledgerSigner PATH
             else Signer.trezorSigner PATH t.senderBtcAddress) <;>
          simp only [hm] at h
        case error m =>
          simp only [GenerateResult.errResult.injEq] at h
          subst h
          simp [ERRORS.TRANSACTION_ERROR]
        case ok raw => exact GenerateResult.noConfusion h

/-- Witness for C9: the error surfaced on the underfunded, locked snapshot
is not of the PENDING_CONFIRMATIONS type. -/
theorem pending_confirmations_unreachable_witness :
    ({ error := true, type := ErrorType.INSUFFICIENT_BTC_BALANCE,
       message := "Insufficient Bitcoin balance to fund transaction fees.",
       estimate := some 50000, btcBalance := some 10000,
       difference := some 40000 } : TxErrorVal).type ≠
      ErrorType.PENDING_CONFIRMATIONS :=
  (pending_confirmations_unreachable brokeLockedEnv "SP1" "SP2" 25
    "TREZOR" "").2 _ rfl

/-- Claim C6: generateTransaction converts every exception raised during
preparation, construction or signing into a TRANSACTION_ERROR result whose
message is the thrown cause's message; its total return type carries no
exception, so no lower-layer failure escapes to the caller. -/
theorem generate_catches_and_wraps
    (env : GenEnv) (sender recipient : String) (amount : Int)
    (walletType memo : String) :
    (∀ m, prepareTransaction env.toPrepareEnv sender recipient amount
        walletType memo = Except.error m →
      generateTransaction env sender recipient amount walletType memo =
        GenerateResult.errResult (ERRORS.TRANSACTION_ERROR (some m)) ∧
      (ERRORS.TRANSACTION_ERROR (some m)).message = m)
    ∧ (∀ t m, prepareTransaction env.toPrepareEnv sender recipient amount
        walletType memo = Except.ok (PrepareOutcome.okResult t) →
      env.makeTokenTransfer t.recipientBtcAddress t.tokenType t.tokenAmount
        memo
        (if walletType == WALLET_TYPES.LEDGER then Signer.ledgerSigner PATH
         else Signer.trezorSigner PATH t.senderBtcAddress) = Except.error m →
      generateTransaction env sender recipient amount walletType memo =
        GenerateResult.errResult (ERRORS.TRANSACTION_ERROR (some m)) ∧
      (ERRORS.TRANSACTION_ERROR (some m)).message = m) := by
  constructor
  · intro m hp
    unfold generateTransaction
    simp only [hp]
    constructor <;> simp [ERRORS.TRANSACTION_ERROR]
  · intro t m hp hm
    unfold generateTransaction
    simp only [hp]
    rw [hm]
    constructor <;> simp [ERRORS.TRANSACTION_ERROR]

/-- Witness for C6: a Ledger transport timeout thrown by the token-transfer
builder surfaces as a TRANSACTION_ERROR carrying that exact message. -/
theorem generate_catches_and_wraps_witness :
    generateTransaction signFailEnv "SP1" "SP2" 25 "TREZOR" "hi" =
      GenerateResult.errResult
        (ERRORS.TRANSACTION_ERROR (some "Ledger device: U2F timeout")) ∧
    (ERRORS.TRANSACTION_ERROR (some "Ledger device: U2F timeout")).message =
      "Ledger device: U2F timeout" :=
  (generate_catches_and_wraps signFailEnv "SP1" "SP2" 25 "TREZOR" "hi").2
    { senderBtcAddress := "BSP1", recipientBtcAddress := "BSP2",
      tokenType := "STACKS", tokenAmount := 25,
      utxos := [1000000, 1000000], numUTXOs := 2,
      estimate := 50000, btcBalance := 2000000,
      accountStatus := { lock_transfer_block_id := 0 },
      currentAccountBalance := 100, blockHeight := 500000 }
    "Ledger device: U2F timeout" rfl rfl

/-- Claim C7: on an admitted transfer, a request with walletType LEDGER makes
generateTransaction call the token-transfer builder with the Ledger signer
variant, and a request with walletType TREZOR makes it call the builder with
the Trezor signer variant; in each case the result is a function of the
builder's behavior on that variant alone, so the other variant is never
invoked. -/
theorem signer_variant_selection
    (env : GenEnv) (sender recipient : String) (amount : Int) (memo : String)
    (t : PreparedTransfer)
    (hp : ∀ w, prepareTransaction env.toPrepareEnv sender recipient amount
        w memo = Except.ok (PrepareOutcome.okResult t)) :
    (generateTransaction env sender recipient amount WALLET_TYPES.LEDGER memo =
      match env.makeTokenTransfer t.recipientBtcAddress t.tokenType
          t.tokenAmount memo (Signer.ledgerSigner PATH) with
      | Except.error e =>
          GenerateResult.errResult (ERRORS.TRANSACTION_ERROR (some e))
      | Except.ok rawTx => GenerateResult.okResult t.estimate rawTx)
    ∧ (generateTransaction env sender recipient amount WALLET_TYPES.TREZOR memo =
      match env.makeTokenTransfer t.recipientBtcAddress t.tokenType
          t.tokenAmount memo (Signer.trezorSigner PATH t.senderBtcAddress) with
      | Except.error e =>
          GenerateResult.errResult (ERRORS.TRANSACTION_ERROR (some e))
      | Except.ok rawTx => GenerateResult.okResult t.estimate rawTx) := by
  have hL : (WALLET_TYPES.LEDGER == WALLET_TYPES.LEDGER) = true := by decide
  have hT : (WALLET_TYPES.TREZOR == WALLET_TYPES.LEDGER) = false := by decide
  constructor
  · unfold generateTransaction
    simp only [hp WALLET_TYPES.LEDGER, hL, if_true]
  · unfold generateTransaction
    simp only [hp WALLET_TYPES.TREZOR, hT, Bool.false_eq_true, if_false]

/-- Witness for C7: on the funded snapshot, a LEDGER request produces the
builder's Ledger-signed raw transaction and a TREZOR request the
Trezor-signed one. -/
theorem signer_variant_selection_witness :
    generateTransaction fundedEnv "SP1" "SP2" 25 WALLET_TYPES.LEDGER "hi" =
      GenerateResult.okResult 50000 "rawhex-ledger" ∧
    generateTransaction fundedEnv "SP1" "SP2" 25 WALLET_TYPES.TREZOR "hi" =
      GenerateResult.okResult 50000 "rawhex-trezor" := by
  have h := signer_variant_selection fundedEnv "SP1" "SP2" 25 "hi"
    { senderBtcAddress := "BSP1", recipientBtcAddress := "BSP2",
      tokenType := "STACKS", tokenAmount := 25,
      utxos := [1000000, 1000000], numUTXOs := 2,
      estimate := 50000, btcBalance := 2000000,
      accountStatus := { lock_transfer_block_id := 0 },
      currentAccountBalance := 100, blockHeight := 500000 }
    (fun _ => rfl)
  exact ⟨h.1.trans rfl, h.2.trans rfl⟩

/-- Claim C10: for every walletType other than LEDGER, including arbitrary
malformed tags, generateTransaction selects the Trezor signer variant on an
admitted transfer and proceeds to signing; no walletType value is rejected
as an input error. -/
theorem nonledger_wallet_type_selects_trezor
    (env : GenEnv) (sender recipient : String) (amount : Int)
    (walletType memo : String) (t : PreparedTransfer)
    (hw : walletType ≠ WALLET_TYPES.LEDGER)
    (hp : prepareTransaction env.toPrepareEnv sender recipient amount
        walletType memo = Except.ok (PrepareOutcome.okResult t)) :
    generateTransaction env sender recipient amount walletType memo =
      match env.makeTokenTransfer t.recipientBtcAddress t.tokenType
          t.tokenAmount memo (Signer.trezorSigner PATH t.senderBtcAddress) with
      | Except.error e =>
          GenerateResult.errResult (ERRORS.TRANSACTION_ERROR (some e))
      | Except.ok rawTx => GenerateResult.okResult t.estimate rawTx := by
  have hb : (walletType == WALLET_TYPES.LEDGER) = false := by
    simp only [beq_eq_false_iff_ne, ne_eq]
    exact hw
  unfold generateTransaction
  simp only [hp, hb, Bool.false_eq_true, if_false]

/-- Witness for C10: the unknown tag BANANA is not rejected; it selects the
Trezor variant and yields the Trezor-signed raw transaction. -/
theorem nonledger_wallet_type_selects_trezor_witness :
    generateTransaction fundedEnv "SP1" "SP2" 25 "BANANA" "hi" =
      GenerateResult.okResult 50000 "rawhex-trezor" :=
  (nonledger_wallet_type_selects_trezor fundedEnv "SP1" "SP2" 25 "BANANA" "hi"
    { senderBtcAddress := "BSP1", recipientBtcAddress := "BSP2",
      tokenType := "STACKS", tokenAmount := 25,
      utxos := [1000000, 1000000], numUTXOs := 2,
      estimate := 50000, btcBalance := 2000000,
      accountStatus := { lock_transfer_block_id := 0 },
      currentAccountBalance := 100, blockHeight := 500000 }
    (by decide) rfl).trans rfl

/-- Counterexample to claim C8 as stated: on a request whose sender address
fails translation, the pipeline entry generateTransaction reports the
failure as the catch-all TRANSACTION_ERROR value of the validation taxonomy,
so the failure is reported as a catch-all domain error. -/
theorem translation_failure_reported_as_catch_all :
    generateTransaction badAddressEnv "SP1" "SP2" 25 "TREZOR" "" =
      GenerateResult.errResult
        (ERRORS.TRANSACTION_ERROR
          (some "Invalid c32check string: checksum failed")) ∧
    (ERRORS.TRANSACTION_ERROR
        (some "Invalid c32check string: checksum failed")).type =
      ErrorType.TRANSACTION_ERROR :=
  ⟨rfl, rfl⟩

/-- Claim C8 as amended: a failing translation of the sender address, or of
the recipient address when the sender's succeeds, makes prepareTransaction
fail fast by propagating the thrown error unchanged (so no gate error object
is produced), but the pipeline entry generateTransaction catches it and
reports it as the catch-all TRANSACTION_ERROR carrying the cause's message,
rather than as a distinct fatal input error. -/
theorem translation_failure_fail_fast
    (env : GenEnv) (sender recipient : String) (amount : Int)
    (walletType memo : String) (m : String) :
    (env.toPrepareEnv.c32ToB58 sender = Except.error m →
      prepareTransaction env.toPrepareEnv sender recipient amount walletType
          memo = Except.error m ∧
      generateTransaction env sender recipient amount walletType memo =
        GenerateResult.errResult (ERRORS.TRANSACTION_ERROR (some m)))
    ∧ (∀ sBtc, env.toPrepareEnv.c32ToB58 sender = Except.ok sBtc →
      env.toPrepareEnv.c32ToB58 recipient = Except.error m →
      prepareTransaction env.toPrepareEnv sender recipient amount walletType
          memo = Except.error m ∧
      generateTransaction env sender recipient amount walletType memo =
        GenerateResult.errResult (ERRORS.TRANSACTION_ERROR (some m))) := by
  constructor
  · intro h
    have hp : prepareTransaction env.toPrepareEnv sender recipient amount
        walletType memo = Except.error m := by
      unfold prepareTransaction
      simp only [h]
    refine ⟨hp, ?_⟩
    unfold generateTransaction
    simp only [hp]
  · intro sBtc hs hr
    have hp : prepareTransaction env.toPrepareEnv sender recipient amount
        walletType memo = Except.error m := by
      unfold prepareTransaction
      simp only [hs, hr]
    refine ⟨hp, ?_⟩
    unfold generateTransaction
    simp only [hp]

/-- Witness for amended C8: with the sender translation failing, and with
only the recipient translation failing, the concrete environments propagate
the translation error from prepareTransaction and surface it from
generateTransaction as TRANSACTION_ERROR. -/
theorem translation_failure_fail_fast_witness :
    (prepareTransaction badAddressEnv.toPrepareEnv "SP1" "SP2" 25 "TREZOR" "" =
      Except.error "Invalid c32check string: checksum failed" ∧
    generateTransaction badAddressEnv "SP1" "SP2" 25 "TREZOR" "" =
      GenerateResult.errResult
        (ERRORS.TRANSACTION_ERROR
          (some "Invalid c32check string: checksum failed")))
    ∧ (prepareTransaction badRecipientEnv.toPrepareEnv "SP1" "SP2" 25
        "TREZOR" "" =
      Except.error "Invalid c32check string: checksum failed" ∧
    generateTransaction badRecipientEnv "SP1" "SP2" 25 "TREZOR" "" =
      GenerateResult.errResult
        (ERRORS.TRANSACTION_ERROR
          (some "Invalid c32check string: checksum failed"))) :=
  ⟨(translation_failure_fail_fast badAddressEnv "SP1" "SP2" 25 "TREZOR" ""
      "Invalid c32check string: checksum failed").1 rfl,
   (translation_failure_fail_fast badRecipientEnv "SP1" "SP2" 25 "TREZOR" ""
      "Invalid c32check string: checksum failed").2 "BSP1" rfl rfl⟩

/-- Claim C4: whenever the relay responds with a body containing the phrase
transaction submitted as a case-insensitive substring and the raw
transaction parses to a hash, broadcastTransaction succeeds and returns the
hex encoding of that hash with its byte order reversed. -/
theorem broadcast_success_txid
    (env : BroadcastEnv) (rawTx text : String) (h : List Nat)
    (hpost : env.postTransaction rawTx = Except.ok text)
    (hmatch : indexOfNonneg (toLowerCase text) "transaction submitted" = true)
    (hhash : env.getHash rawTx = Except.ok h) :
    broadcastTransaction env rawTx = Except.ok (hexOfBytes h.reverse) := by
  unfold broadcastTransaction
  simp only [hpost, hmatch, hhash, if_true]

/-- Witness for C4: a capitalized acceptance body is matched
case-insensitively and the hash bytes 1, 2, 171 come back reversed as the
hex string ab0201. -/
theorem broadcast_success_txid_witness :
    broadcastTransaction relayAcceptEnv "aa00" = Except.ok "ab0201" :=
  (broadcast_success_txid relayAcceptEnv "aa00"
    "Transaction Submitted. ID: abc" [1, 2, 171] rfl rfl rfl).trans rfl

/-- Claim C5, evaluated at the failing input: when the relay answers with
the body Invalid transaction format, broadcastTransaction throws an Error
whose message is the empty string, because the rejected value is a plain
string whose message property is undefined; the response body is lost, not
attached.  A transport-level exception, by contrast, is rethrown as an
Error carrying its message, never propagated raw. -/
theorem broadcast_rejection_drops_body :
    broadcastTransaction relayRejectEnv "aa00" = Except.error "" ∧
    indexOfNonneg "" "Invalid transaction format" = false ∧
    broadcastTransaction relayDownEnv "aa00" =
      Except.error "connect ECONNREFUSED" :=
  ⟨rfl, rfl, rfl⟩

end StacksWallet
